import Mathlib

/-!
Verification of the BLE advertisement decoders of the `blescanner` repository
(`blescanner_atc_mithermometer.py`, `blescanner_gvh5075_decoder.py`,
`blescanner_ruuvitag.py`) against their natural-language specification.

The three `decode_data` functions are embedded shallowly:

* a raw advertisement payload is a `List ℕ` of byte values (each `< 256`);
* the Python result dict is an association list `JObj` whose entries appear
  in the insertion order of the source;
* Python `float` arithmetic on the small sensor quantities is modelled over
  `ℚ`, with `round(x, n)` as round-half-to-even (`pyRound`) and `int(x)` as
  truncation toward zero (`pyInt`) — at every concrete value appearing in a
  theorem below the rational model agrees with IEEE-double evaluation;
* an uncaught Python exception (the `KeyError` raised by
  `data[_ADVERTISEMENT_KEY][KEY]` when the key is absent) is modelled by
  `Option`: the device-level decoders return `none` exactly when the lookup
  raises.
-/

namespace BLEScanner

/-- A JSON-style value as produced inside the Python result dict. -/
inductive JVal where
  | str : String → JVal
  | int : ℤ → JVal
  | rat : ℚ → JVal
  | null : JVal
deriving DecidableEq

/-- A Python dict with string keys, kept in insertion order. -/
abbrev JObj := List (String × JVal)

/-- Field access on a result object (first binding wins, like a dict). -/
def jget (o : JObj) (k : String) : Option JVal := o.lookup k

/-- Python `round(x)`: round half to even, to an integer. -/
def pyRoundInt (x : ℚ) : ℤ :=
  if x - ⌊x⌋ < 1/2 then ⌊x⌋
  else if 1/2 < x - ⌊x⌋ then ⌊x⌋ + 1
  else if ⌊x⌋ % 2 = 0 then ⌊x⌋ else ⌊x⌋ + 1

/-- Python `round(x, n)`: round half to even at `n` decimal places. -/
def pyRound (n : ℕ) (x : ℚ) : ℚ := (pyRoundInt (x * 10 ^ n) : ℚ) / 10 ^ n

/-- Python `int(x)`: truncation toward zero. -/
def pyInt (x : ℚ) : ℤ := if 0 ≤ x then ⌊x⌋ else ⌈x⌉

/-- Byte at index `i` of a payload (all accesses below are in bounds). -/
def byteAt (l : List ℕ) (i : ℕ) : ℕ := l.getD i 0

/-- Unsigned 16-bit little-endian field at byte offset `i` (struct `<H`). -/
def u16le (l : List ℕ) (i : ℕ) : ℕ := byteAt l i + 256 * byteAt l (i + 1)

/-- Unsigned 16-bit big-endian field at byte offset `i` (struct `>H`). -/
def u16be (l : List ℕ) (i : ℕ) : ℕ := 256 * byteAt l i + byteAt l (i + 1)

/-- Signed 16-bit big-endian field at byte offset `i` (struct `>h`). -/
def s16be (l : List ℕ) (i : ℕ) : ℤ :=
  if u16be l i < 32768 then (u16be l i : ℤ) else (u16be l i : ℤ) - 65536

/-- Unsigned 32-bit big-endian field at byte offset `i` (struct `>I`). -/
def u32be (l : List ℕ) (i : ℕ) : ℕ :=
  16777216 * byteAt l i + 65536 * byteAt l (i + 1) +
    256 * byteAt l (i + 2) + byteAt l (i + 3)

/-- The f-string `Received wrong data size (bytes). Expect ..., received ...`
shared by the three decoders' length checks. -/
def wrongSizeMsg (expect actual : ℕ) : String :=
  "Received wrong data size (bytes). Expect " ++ toString expect ++
    ", received " ++ toString actual

/-- A discovered device as handed to `decode_data`: the values of the
`address` and `name` keys plus the `advertisementdata` mapping, whose raw
hex strings are kept as already-parsed byte lists. -/
structure Device where
  address : String
  name : JVal
  advertisementdata : List (String × List ℕ)

/-- Constant `_UUID_SERVICE_DATA` of `blescanner_atc_mithermometer.py`. -/
def uuidServiceData : String := "0000181A-0000-1000-8000-00805F9B34FB"

/-- Constant `_MANUFACTURER_KEY` of `blescanner_gvh5075_decoder.py`. -/
def goveeKey : String := "0XEC88"

/-- Constant `_MANUFACTURER_KEY` of `blescanner_ruuvitag.py`. -/
def ruuviKey : String := "0X499"

/-- Byte-level part of `decode_data` of `blescanner_atc_mithermometer.py`
(after `bytes.fromhex`): length check against 15, slice `data[6:13]`,
`struct.unpack('<HHHB', data)` and the scaled result dict. -/
def atc_decode_bytes (mac : String) (name : JVal) (data : List ℕ) : JObj :=
  if data.length ≠ 15 then
    [("mac", .str mac), ("name", name), ("status", .str "ERR"),
     ("message", .str (wrongSizeMsg 15 data.length))]
  else
    let d := (data.drop 6).take 7
    [("status", .str "OK"), ("message", .str ""),
     ("mac", .str mac), ("name", name),
     ("temperature", .rat (pyRound 2 ((u16le d 0 : ℚ) / 100))),
     ("humidity", .int (pyRoundInt ((u16le d 2 : ℚ) / 100))),
     ("voltage", .rat (pyRound 2 ((u16le d 4 : ℚ) / 1000))),
     ("batterylevel", .int (byteAt d 6))]

/-- Function `decode_data` of `blescanner_atc_mithermometer.py` at device level:
`data[_ADVERTISEMENT_KEY][_UUID_SERVICE_DATA]` raises `KeyError` (modelled
as `none`) when the service-data key is absent. -/
def atc_decode_data (dev : Device) : Option JObj :=
  (dev.advertisementdata.lookup uuidServiceData).map
    (atc_decode_bytes dev.address dev.name)

/-- The 24-bit sign handling of `blescanner_gvh5075_decoder.py`: clear bit
23 of the big-endian 32-bit value when it is set (`raw ^ 0x800000`). -/
def gvhRaw (data : List ℕ) : ℕ :=
  if (u32be data 0).testBit 23 then (u32be data 0) ^^^ 8388608 else u32be data 0

/-- Byte-level part of `decode_data` of `blescanner_gvh5075_decoder.py`:
length check against 6, `struct.unpack('>I', data[0:4])`, sign-bit
handling, temperature/humidity split and battery byte. -/
def gvh_decode_bytes (mac : String) (name : JVal) (data : List ℕ) : JObj :=
  if data.length ≠ 6 then
    [("mac", .str mac), ("name", name), ("status", .str "ERR"),
     ("message", .str (wrongSizeMsg 6 data.length))]
  else
    let raw := gvhRaw data
    let temperature : ℚ :=
      if (u32be data 0).testBit 23 then 0 - ((raw / 1000 : ℕ) : ℚ) / 10
      else ((raw / 1000 : ℕ) : ℚ) / 10
    let humidity : ℚ := ((raw % 1000 : ℕ) : ℚ) / 10
    [("mac", .str mac), ("name", name), ("status", .str "OK"),
     ("message", .str ""),
     ("temperature", .rat (pyRound 1 temperature)),
     ("humidity", .int (pyInt humidity)),
     ("batterylevel", .int (byteAt data 4))]

/-- Function `decode_data` of `blescanner_gvh5075_decoder.py` at device level;
`none` models the `KeyError` on a missing `0XEC88` key. -/
def gvh_decode_data (dev : Device) : Option JObj :=
  (dev.advertisementdata.lookup goveeKey).map
    (gvh_decode_bytes dev.address dev.name)

/-- Line `v = round(((dat[7]/32)+1600)/1000.0, 2)` of `blescanner_ruuvitag.py`:
note the Python true division `dat[7]/32`, which keeps the fractional
contribution of the 5 low power-info bits before rounding. -/
def ruuviVoltage (pw : ℕ) : ℚ := pyRound 2 (((pw : ℚ) / 32 + 1600) / 1000)

/-- Expression `int((v - _BATTERY_LEVEL_MIN) / (_BATTERY_LEVEL_MAX -
_BATTERY_LEVEL_MIN) * 100)` of `blescanner_ruuvitag.py`, with
`_BATTERY_LEVEL_MIN = 1.600` and `_BATTERY_LEVEL_MAX = 3.646`. -/
def ruuviBattery (pw : ℕ) : ℤ :=
  pyInt ((ruuviVoltage pw - 1600/1000) / (3646/1000 - 1600/1000) * 100)

/-- Byte-level part of `decode_data` of `blescanner_ruuvitag.py`: length
check against 24, slice `data[0:18]`, discriminator check `data[0] == 0x05`,
`struct.unpack('>BhHHhhhHBH', data)` and the derived fields. -/
def ruuvi_decode_bytes (mac : String) (name : JVal) (data : List ℕ) : JObj :=
  if data.length ≠ 24 then
    [("mac", .str mac), ("name", name), ("status", .str "ERR"),
     ("message", .str (wrongSizeMsg 24 data.length))]
  else
    let d := data.take 18
    if byteAt d 0 = 5 then
      let pw := u16be d 13
      [("mac", .str mac), ("name", name), ("status", .str "OK"),
       ("message", .str ""),
       ("temperature", .rat (pyRound 1 ((s16be d 1 : ℚ) / 200))),
       ("humidity", .int (pyInt ((u16be d 3 : ℚ) / 400))),
       ("airpressure", .int (pyInt (((u16be d 5 : ℚ) + 50000) / 100))),
       ("accelerationx", .int (s16be d 7)),
       ("accelerationy", .int (s16be d 9)),
       ("accelerationz", .int (s16be d 11)),
       ("voltage", .rat (ruuviVoltage pw)),
       ("batterylevel", .int (ruuviBattery pw)),
       ("txstrength", .int ((pw % 32 : ℕ) * 2 - 40)),
       ("movementcounter", .int (byteAt d 15)),
       ("sequencecounter", .int (u16be d 16))]
    else
      [("mac", .str mac), ("status", .str "ERR"),
       ("message", .str "Received wrong data type.")]

/-- Function `decode_data` of `blescanner_ruuvitag.py` at device level; `none`
models the `KeyError` on a missing `0X499` key. -/
def ruuvi_decode_data (dev : Device) : Option JObj :=
  (dev.advertisementdata.lookup ruuviKey).map
    (ruuvi_decode_bytes dev.address dev.name)

/-- Whether the `message` field of a result object mentions the decimal
rendering of the value `v`. -/
def msgMentions (o : JObj) (v : ℕ) : Bool :=
  match jget o "message" with
  | some (.str m) =>
      (List.range (m.length + 1)).any
        (fun i => (toString v).toList.isPrefixOf (m.toList.drop i))
  | _ => false

lemma byteAt_drop (l : List ℕ) (m i : ℕ) : byteAt (l.drop m) i = byteAt l (m + i) := by
  simp [byteAt, List.getD_eq_getElem?_getD, List.getElem?_drop]

lemma byteAt_take (l : List ℕ) {k i : ℕ} (h : i < k) : byteAt (l.take k) i = byteAt l i := by
  simp [byteAt, List.getD_eq_getElem?_getD, List.getElem?_take, h]

lemma byteAt_drop_take (l : List ℕ) (m : ℕ) {k i : ℕ} (h : i < k) :
    byteAt ((l.drop m).take k) i = byteAt l (m + i) := by
  rw [byteAt_take _ h, byteAt_drop]

lemma pyRoundInt_intCast (n : ℤ) : pyRoundInt (n : ℚ) = n := by
  rw [pyRoundInt, Int.floor_intCast]
  norm_num

lemma atc_ok_form (mac : String) (name : JVal) (data : List ℕ) (h : data.length = 15) :
    atc_decode_bytes mac name data =
      [("status", .str "OK"), ("message", .str ""),
       ("mac", .str mac), ("name", name),
       ("temperature", .rat (pyRound 2 ((u16le data 6 : ℚ) / 100))),
       ("humidity", .int (pyRoundInt ((u16le data 8 : ℚ) / 100))),
       ("voltage", .rat (pyRound 2 ((u16le data 10 : ℚ) / 1000))),
       ("batterylevel", .int (byteAt data 12))] := by
  rw [atc_decode_bytes, if_neg (by omega)]
  simp [u16le, byteAt_drop_take]

/-- Claim C1: every 15-byte Xiaomi service-data payload decodes to status OK
with temperature `u16le@6 / 100` rounded to 2 decimals, humidity
`round(u16le@8 / 100)` as integer, voltage `u16le@10 / 1000` rounded to 2
decimals and batterylevel byte 12; the documented payload
`C2745238C1A45907DB15130A36830E` gives 18.81 °C, 56 %, 2.58 V, 54 %. -/
theorem claim1_xiaomi_decode :
    (∀ (mac : String) (name : JVal) (data : List ℕ), data.length = 15 →
      atc_decode_bytes mac name data =
        [("status", .str "OK"), ("message", .str ""),
         ("mac", .str mac), ("name", name),
         ("temperature", .rat (pyRound 2 ((u16le data 6 : ℚ) / 100))),
         ("humidity", .int (pyRoundInt ((u16le data 8 : ℚ) / 100))),
         ("voltage", .rat (pyRound 2 ((u16le data 10 : ℚ) / 1000))),
         ("batterylevel", .int (byteAt data 12))]) ∧
    atc_decode_bytes "A4:C1:38:52:74:C2" (.str "ATC_38A90C")
        [0xC2,0x74,0x52,0x38,0xC1,0xA4,0x59,0x07,0xDB,0x15,0x13,0x0A,0x36,0x83,0x0E] =
      [("status", .str "OK"), ("message", .str ""),
       ("mac", .str "A4:C1:38:52:74:C2"), ("name", .str "ATC_38A90C"),
       ("temperature", .rat (18.81 : ℚ)), ("humidity", .int 56),
       ("voltage", .rat (2.58 : ℚ)), ("batterylevel", .int 54)] :=
  ⟨atc_ok_form, by with_unfolding_all rfl⟩

/-- Witness for C1: the universal part applied to an all-zero 15-byte payload. -/
theorem claim1_witness :
    atc_decode_bytes "00:00:00:00:00:00" .null (List.replicate 15 0) =
      [("status", .str "OK"), ("message", .str ""),
       ("mac", .str "00:00:00:00:00:00"), ("name", .null),
       ("temperature", .rat (pyRound 2 ((u16le (List.replicate 15 0) 6 : ℚ) / 100))),
       ("humidity", .int (pyRoundInt ((u16le (List.replicate 15 0) 8 : ℚ) / 100))),
       ("voltage", .rat (pyRound 2 ((u16le (List.replicate 15 0) 10 : ℚ) / 1000))),
       ("batterylevel", .int (byteAt (List.replicate 15 0) 12))] :=
  claim1_xiaomi_decode.1 "00:00:00:00:00:00" .null (List.replicate 15 0) (by decide)

/-- Claim C3: for each decoder (Xiaomi 15, Govee 6, Ruuvi 24 bytes), any
payload of a different length yields the `status=ERR` object whose message
is the shared f-string citing the expected and the actual byte count. -/
theorem claim3_wrong_length :
    (∀ (e a : ℕ), wrongSizeMsg e a =
      "Received wrong data size (bytes). Expect " ++ toString e ++
        ", received " ++ toString a) ∧
    ∀ (mac : String) (name : JVal) (data : List ℕ),
      (data.length ≠ 15 → atc_decode_bytes mac name data =
        [("mac", .str mac), ("name", name), ("status", .str "ERR"),
         ("message", .str (wrongSizeMsg 15 data.length))]) ∧
      (data.length ≠ 6 → gvh_decode_bytes mac name data =
        [("mac", .str mac), ("name", name), ("status", .str "ERR"),
         ("message", .str (wrongSizeMsg 6 data.length))]) ∧
      (data.length ≠ 24 → ruuvi_decode_bytes mac name data =
        [("mac", .str mac), ("name", name), ("status", .str "ERR"),
         ("message", .str (wrongSizeMsg 24 data.length))]) := by
  refine ⟨fun e a => rfl, fun mac name data => ⟨fun h => ?_, fun h => ?_, fun h => ?_⟩⟩
  · rw [atc_decode_bytes, if_pos h]
  · rw [gvh_decode_bytes, if_pos h]
  · rw [ruuvi_decode_bytes, if_pos h]

/-- Witness for C3: the three wrong-length branches applied to a 2-byte
payload. -/
theorem claim3_witness :
    atc_decode_bytes "M" .null [1, 2] =
      [("mac", .str "M"), ("name", .null), ("status", .str "ERR"),
       ("message", .str (wrongSizeMsg 15 (List.length [1, 2])))] ∧
    gvh_decode_bytes "M" .null [1, 2] =
      [("mac", .str "M"), ("name", .null), ("status", .str "ERR"),
       ("message", .str (wrongSizeMsg 6 (List.length [1, 2])))] ∧
    ruuvi_decode_bytes "M" .null [1, 2] =
      [("mac", .str "M"), ("name", .null), ("status", .str "ERR"),
       ("message", .str (wrongSizeMsg 24 (List.length [1, 2])))] :=
  ⟨(claim3_wrong_length.2 "M" .null [1, 2]).1 (by decide),
   (claim3_wrong_length.2 "M" .null [1, 2]).2.1 (by decide),
   (claim3_wrong_length.2 "M" .null [1, 2]).2.2 (by decide)⟩

lemma byteAt_lt (data : List ℕ) (hb : ∀ b ∈ data, b < 256) {i : ℕ}
    (hi : i < data.length) : byteAt data i < 256 := by
  rw [byteAt, List.getD_eq_getElem data 0 hi]
  exact hb _ (List.getElem_mem hi)

lemma u16le_le (data : List ℕ) (hb : ∀ b ∈ data, b < 256) {i : ℕ}
    (hi : i + 1 < data.length) : u16le data i ≤ 65535 := by
  have h1 := byteAt_lt data hb (by omega : i < data.length)
  have h2 := byteAt_lt data hb hi
  rw [u16le]; omega

lemma pyRound_two_cast_div_hundred (t : ℕ) :
    pyRound 2 ((t : ℚ) / 100) = (t : ℚ) / 100 := by
  rw [pyRound, show ((10 : ℚ) ^ 2) = 100 by norm_num,
    div_mul_cancel₀ _ (by norm_num : (100 : ℚ) ≠ 0),
    show ((t : ℕ) : ℚ) = ((t : ℤ) : ℚ) by norm_cast, pyRoundInt_intCast]

lemma pyInt_natCast_div (a b : ℕ) :
    pyInt ((a : ℚ) / (b : ℚ)) = ((a / b : ℕ) : ℤ) := by
  rw [pyInt, if_pos (by positivity),
    show ((a : ℕ) : ℚ) = ((a : ℤ) : ℚ) by norm_cast,
    Rat.floor_intCast_div_natCast]
  exact (Int.natCast_div a b).symm

/-- Claim C10: on any 15-byte Xiaomi payload the decoded temperature is the
unsigned field `u16le@6 / 100`, hence nonnegative, at most 655.35 °C, and at
least 327.68 °C whenever the raw field is `0x8000` or more — never a
negative reading. -/
theorem claim10_temperature_unsigned :
    ∀ (mac : String) (name : JVal) (data : List ℕ), data.length = 15 →
      (∀ b ∈ data, b < 256) →
      jget (atc_decode_bytes mac name data) "temperature" =
          some (.rat ((u16le data 6 : ℚ) / 100)) ∧
      0 ≤ (u16le data 6 : ℚ) / 100 ∧
      (u16le data 6 : ℚ) / 100 ≤ 655.35 ∧
      (32768 ≤ u16le data 6 → (327.68 : ℚ) ≤ (u16le data 6 : ℚ) / 100) := by
  intro mac name data h hb
  have hle : u16le data 6 ≤ 65535 := u16le_le data hb (by omega)
  refine ⟨?_, by positivity, ?_, fun h8 => ?_⟩
  · rw [atc_ok_form mac name data h, pyRound_two_cast_div_hundred]
    simp [jget, List.lookup]
  · rw [div_le_iff₀ (by norm_num : (0 : ℚ) < 100)]
    norm_num
    exact_mod_cast hle
  · rw [le_div_iff₀ (by norm_num : (0 : ℚ) < 100)]
    norm_num
    exact_mod_cast h8

/-- Witness for C10 at the documented 15-byte payload. -/
theorem claim10_witness :
    jget (atc_decode_bytes "A4:C1:38:52:74:C2" (.str "ATC_38A90C")
        [0xC2,0x74,0x52,0x38,0xC1,0xA4,0x59,0x07,0xDB,0x15,0x13,0x0A,0x36,0x83,0x0E])
        "temperature" =
      some (.rat ((u16le [0xC2,0x74,0x52,0x38,0xC1,0xA4,0x59,0x07,0xDB,0x15,0x13,0x0A,0x36,0x83,0x0E] 6 : ℚ) / 100)) ∧
    0 ≤ (u16le [0xC2,0x74,0x52,0x38,0xC1,0xA4,0x59,0x07,0xDB,0x15,0x13,0x0A,0x36,0x83,0x0E] 6 : ℚ) / 100 ∧
    (u16le [0xC2,0x74,0x52,0x38,0xC1,0xA4,0x59,0x07,0xDB,0x15,0x13,0x0A,0x36,0x83,0x0E] 6 : ℚ) / 100 ≤ 655.35 ∧
    (32768 ≤ u16le [0xC2,0x74,0x52,0x38,0xC1,0xA4,0x59,0x07,0xDB,0x15,0x13,0x0A,0x36,0x83,0x0E] 6 →
      (327.68 : ℚ) ≤ (u16le [0xC2,0x74,0x52,0x38,0xC1,0xA4,0x59,0x07,0xDB,0x15,0x13,0x0A,0x36,0x83,0x0E] 6 : ℚ) / 100) :=
  claim10_temperature_unsigned "A4:C1:38:52:74:C2" (.str "ATC_38A90C")
    [0xC2,0x74,0x52,0x38,0xC1,0xA4,0x59,0x07,0xDB,0x15,0x13,0x0A,0x36,0x83,0x0E]
    (by decide) (by decide)

/-- Claim C6 counterexample: on the documented Govee payload `00029E436400`
(`raw % 1000 = 587`) the decoder's humidity field is the integer 58, not
the one-decimal value 58.7 the claim requires. -/
theorem claim6_counterexample :
    jget (gvh_decode_bytes "A4:C1:38:D1:17:57" (.str "GVH5075_1757")
        [0x00,0x02,0x9E,0x43,0x64,0x00]) "humidity" = some (.int 58) ∧
    gvhRaw [0x00,0x02,0x9E,0x43,0x64,0x00] % 1000 = 587 ∧
    (JVal.int 58 ≠ JVal.rat (58.7 : ℚ)) :=
  ⟨by with_unfolding_all rfl, by with_unfolding_all rfl,
   by intro hcontra; exact JVal.noConfusion hcontra⟩

/-- Claim C6 amended: on every 6-byte Govee payload the humidity field is
`(raw % 1000) / 10` truncated to an integer (the one-decimal quotient is
computed and then passed through `int(...)`). -/
theorem claim6_humidity_truncated :
    ∀ (mac : String) (name : JVal) (data : List ℕ), data.length = 6 →
      jget (gvh_decode_bytes mac name data) "humidity" =
        some (.int ((gvhRaw data % 1000 / 10 : ℕ) : ℤ)) := by
  intro mac name data h
  rw [gvh_decode_bytes, if_neg (by omega)]
  simp only [jget]
  rw [show ((10 : ℚ)) = ((10 : ℕ) : ℚ) by norm_cast, pyInt_natCast_div]
  simp [List.lookup]

/-- Witness for C6 amended at the documented Govee payload. -/
theorem claim6_witness :
    jget (gvh_decode_bytes "A4:C1:38:D1:17:57" (.str "GVH5075_1757")
        [0x00,0x02,0x9E,0x43,0x64,0x00]) "humidity" =
      some (.int ((gvhRaw [0x00,0x02,0x9E,0x43,0x64,0x00] % 1000 / 10 : ℕ) : ℤ)) :=
  claim6_humidity_truncated "A4:C1:38:D1:17:57" (.str "GVH5075_1757")
    [0x00,0x02,0x9E,0x43,0x64,0x00] (by decide)

/-- Claim C2 counterexample: a device whose `advertisementdata` lacks the
configured key makes each of the three decoders raise an uncaught
`KeyError` (modelled as `none`) instead of returning a MissingKey
`status=ERR` reading. -/
theorem claim2_counterexample :
    atc_decode_data ⟨"AA:BB:CC:DD:EE:FF", .null, []⟩ = none ∧
    gvh_decode_data ⟨"AA:BB:CC:DD:EE:FF", .null, []⟩ = none ∧
    ruuvi_decode_data ⟨"AA:BB:CC:DD:EE:FF", .null, []⟩ = none :=
  ⟨rfl, rfl, rfl⟩

/-- Claim C2 amended: whenever the configured manufacturer/service key is
absent from `advertisementdata`, each decoder produces no reading at all —
the dict access raises `KeyError` (modelled as `none`), rather than a
MissingKey `status=ERR` reading. -/
theorem claim2_missing_key :
    ∀ dev : Device,
      (dev.advertisementdata.lookup uuidServiceData = none →
        atc_decode_data dev = none) ∧
      (dev.advertisementdata.lookup goveeKey = none →
        gvh_decode_data dev = none) ∧
      (dev.advertisementdata.lookup ruuviKey = none →
        ruuvi_decode_data dev = none) := by
  intro dev
  refine ⟨fun h => ?_, fun h => ?_, fun h => ?_⟩
  · rw [atc_decode_data, h]; rfl
  · rw [gvh_decode_data, h]; rfl
  · rw [ruuvi_decode_data, h]; rfl

/-- Witness for C2 amended at a device with an empty advertisement map. -/
theorem claim2_witness :
    atc_decode_data ⟨"00:00:00:00:00:01", .str "X", []⟩ = none ∧
    gvh_decode_data ⟨"00:00:00:00:00:01", .str "X", []⟩ = none ∧
    ruuvi_decode_data ⟨"00:00:00:00:00:01", .str "X", []⟩ = none :=
  ⟨(claim2_missing_key ⟨"00:00:00:00:00:01", .str "X", []⟩).1 rfl,
   (claim2_missing_key ⟨"00:00:00:00:00:01", .str "X", []⟩).2.1 rfl,
   (claim2_missing_key ⟨"00:00:00:00:00:01", .str "X", []⟩).2.2 rfl⟩

lemma u16be_le (data : List ℕ) (hb : ∀ b ∈ data, b < 256) {i : ℕ}
    (hi : i + 1 < data.length) : u16be data i ≤ 65535 := by
  have h1 := byteAt_lt data hb (by omega : i < data.length)
  have h2 := byteAt_lt data hb hi
  rw [u16be]; omega

lemma ruuvi_ok_form (mac : String) (name : JVal) (data : List ℕ)
    (h : data.length = 24) (h5 : byteAt data 0 = 5) :
    ruuvi_decode_bytes mac name data =
      [("mac", .str mac), ("name", name), ("status", .str "OK"),
       ("message", .str ""),
       ("temperature", .rat (pyRound 1 ((s16be data 1 : ℚ) / 200))),
       ("humidity", .int (pyInt ((u16be data 3 : ℚ) / 400))),
       ("airpressure", .int (pyInt (((u16be data 5 : ℚ) + 50000) / 100))),
       ("accelerationx", .int (s16be data 7)),
       ("accelerationy", .int (s16be data 9)),
       ("accelerationz", .int (s16be data 11)),
       ("voltage", .rat (ruuviVoltage (u16be data 13))),
       ("batterylevel", .int (ruuviBattery (u16be data 13))),
       ("txstrength", .int ((u16be data 13 % 32 : ℕ) * 2 - 40)),
       ("movementcounter", .int (byteAt data 15)),
       ("sequencecounter", .int (u16be data 16))] := by
  rw [ruuvi_decode_bytes, if_neg (by omega)]
  simp [u16be, s16be, byteAt_take, h5]

lemma ruuvi_errtype_form (mac : String) (name : JVal) (data : List ℕ)
    (h : data.length = 24) (h5 : byteAt data 0 ≠ 5) :
    ruuvi_decode_bytes mac name data =
      [("mac", .str mac), ("status", .str "ERR"),
       ("message", .str "Received wrong data type.")] := by
  rw [ruuvi_decode_bytes, if_neg (by omega)]
  simp [byteAt_take, h5]

/-- Claim C4 counterexample: a 24-byte payload starting with discriminator 4
is rejected with the constant message `Received wrong data type.`, which
does not mention the offending value 4 at all. -/
theorem claim4_counterexample :
    ruuvi_decode_bytes "AA:BB:CC:DD:EE:FF" .null (4 :: List.replicate 23 0) =
      [("mac", .str "AA:BB:CC:DD:EE:FF"), ("status", .str "ERR"),
       ("message", .str "Received wrong data type.")] ∧
    msgMentions (ruuvi_decode_bytes "AA:BB:CC:DD:EE:FF" .null
        (4 :: List.replicate 23 0))
      (byteAt (4 :: List.replicate 23 0) 0) = false :=
  ⟨by with_unfolding_all rfl, by with_unfolding_all rfl⟩

/-- Claim C4 amended: every 24-byte Ruuvi payload whose byte 0 is not 0x05
yields `status=ERR` with the fixed message `Received wrong data type.` — the
message does not name the unexpected discriminator value. -/
theorem claim4_wrong_discriminator :
    ∀ (mac : String) (name : JVal) (data : List ℕ), data.length = 24 →
      byteAt data 0 ≠ 5 →
      ruuvi_decode_bytes mac name data =
        [("mac", .str mac), ("status", .str "ERR"),
         ("message", .str "Received wrong data type.")] :=
  fun mac name data h h5 => ruuvi_errtype_form mac name data h h5

/-- Witness for C4 amended at a concrete discriminator-0 payload. -/
theorem claim4_witness :
    ruuvi_decode_bytes "M" (.str "N") (List.replicate 24 0) =
      [("mac", .str "M"), ("status", .str "ERR"),
       ("message", .str "Received wrong data type.")] :=
  claim4_wrong_discriminator "M" (.str "N") (List.replicate 24 0)
    (by decide) (by decide)

/-- Claim C5 counterexample: on the documented golden Ruuvi payload the
decoder yields temperature 14.7 (the claimed fixture value is 14.71) and
airpressure 1013 (the claim expects approximately 1002). -/
theorem claim5_counterexample :
    jget (ruuvi_decode_bytes "F7:6F:D8:27:B7:8D" (.str "Ruuvi B78D")
        [0x05,0x0B,0x85,0x60,0x30,0xC8,0x79,0xFF,0xE0,0x00,0x64,0x03,0xF8,
         0xAA,0x16,0x19,0x38,0x43,0xF7,0x6F,0xD8,0x27,0xB7,0x8D])
      "temperature" = some (.rat (14.7 : ℚ)) ∧
    (14.7 : ℚ) ≠ (14.71 : ℚ) ∧
    jget (ruuvi_decode_bytes "F7:6F:D8:27:B7:8D" (.str "Ruuvi B78D")
        [0x05,0x0B,0x85,0x60,0x30,0xC8,0x79,0xFF,0xE0,0x00,0x64,0x03,0xF8,
         0xAA,0x16,0x19,0x38,0x43,0xF7,0x6F,0xD8,0x27,0xB7,0x8D])
      "airpressure" = some (.int 1013) ∧
    (1013 : ℤ) ≠ 1002 :=
  ⟨by with_unfolding_all rfl, by norm_num,
   by with_unfolding_all rfl, by norm_num⟩

/-- Claim C5 amended: the documented 18-byte golden portion
`050B856030C879FFE0006403F8AA16193843`, followed by any 6 trailing MAC
bytes, decodes to status OK with temperature 14.7, humidity 61,
airpressure 1013, accelerations (-32, 100, 1016), voltage 2.96,
batterylevel 66, txstrength 4, movementcounter 25, sequencecounter 14403;
the three quoted fields equal the formulas raw/200 rounded to 1 decimal,
raw/400 truncated and (raw+50000)/100 truncated at the fixture's raw
values. -/
theorem claim5_ruuvi_fixture :
    ∀ (mac : String) (name : JVal) (tail : List ℕ), tail.length = 6 →
      ruuvi_decode_bytes mac name
          ([0x05,0x0B,0x85,0x60,0x30,0xC8,0x79,0xFF,0xE0,0x00,0x64,0x03,0xF8,
            0xAA,0x16,0x19,0x38,0x43] ++ tail) =
        [("mac", .str mac), ("name", name), ("status", .str "OK"),
         ("message", .str ""),
         ("temperature", .rat (14.7 : ℚ)), ("humidity", .int 61),
         ("airpressure", .int 1013),
         ("accelerationx", .int (-32)), ("accelerationy", .int 100),
         ("accelerationz", .int 1016),
         ("voltage", .rat (2.96 : ℚ)), ("batterylevel", .int 66),
         ("txstrength", .int 4),
         ("movementcounter", .int 25), ("sequencecounter", .int 14403)] ∧
      (14.7 : ℚ) = pyRound 1 ((2949 : ℚ) / 200) ∧
      (61 : ℤ) = pyInt ((24624 : ℚ) / 400) ∧
      (1013 : ℤ) = pyInt (((51321 : ℚ) + 50000) / 100) := by
  intro mac name tail ht
  have htake : ([0x05,0x0B,0x85,0x60,0x30,0xC8,0x79,0xFF,0xE0,0x00,0x64,0x03,
      0xF8,0xAA,0x16,0x19,0x38,0x43] ++ tail).take 18 =
      [0x05,0x0B,0x85,0x60,0x30,0xC8,0x79,0xFF,0xE0,0x00,0x64,0x03,0xF8,
       0xAA,0x16,0x19,0x38,0x43] := by
    have h18 : ([0x05,0x0B,0x85,0x60,0x30,0xC8,0x79,0xFF,0xE0,0x00,0x64,0x03,
        0xF8,0xAA,0x16,0x19,0x38,0x43] : List ℕ).length = 18 := rfl
    exact h18 ▸ List.take_left _ tail
  refine ⟨?_, by with_unfolding_all rfl, by with_unfolding_all rfl,
    by with_unfolding_all rfl⟩
  rw [ruuvi_decode_bytes, if_neg (by simp [ht]), htake]
  with_unfolding_all rfl

/-- Witness for C5 amended, with the device's actual MAC as trailing bytes. -/
theorem claim5_witness :
    ruuvi_decode_bytes "F7:6F:D8:27:B7:8D" (.str "Ruuvi B78D")
        ([0x05,0x0B,0x85,0x60,0x30,0xC8,0x79,0xFF,0xE0,0x00,0x64,0x03,0xF8,
          0xAA,0x16,0x19,0x38,0x43] ++ [0xF7,0x6F,0xD8,0x27,0xB7,0x8D]) =
      [("mac", .str "F7:6F:D8:27:B7:8D"), ("name", .str "Ruuvi B78D"),
       ("status", .str "OK"), ("message", .str ""),
       ("temperature", .rat (14.7 : ℚ)), ("humidity", .int 61),
       ("airpressure", .int 1013),
       ("accelerationx", .int (-32)), ("accelerationy", .int 100),
       ("accelerationz", .int 1016),
       ("voltage", .rat (2.96 : ℚ)), ("batterylevel", .int 66),
       ("txstrength", .int 4),
       ("movementcounter", .int 25), ("sequencecounter", .int 14403)] :=
  (claim5_ruuvi_fixture "F7:6F:D8:27:B7:8D" (.str "Ruuvi B78D")
    [0xF7,0x6F,0xD8,0x27,0xB7,0x8D] (by decide)).1

/-- Claim C7 counterexample: with power-info 161 (= 5·32 + 1) the decoder's
voltage is 1.61, while the claim's shift-based formula
`round(((161 >> 5) + 1600) / 1000, 2)` gives 1.6: the code divides truly by
32 and keeps the low 5 bits' fractional contribution before rounding. -/
theorem claim7_counterexample :
    jget (ruuvi_decode_bytes "M" .null
        [5,0,0,0,0,0,0,0,0,0,0,0,0,0,161,0,0,0,0,0,0,0,0,0]) "voltage" =
      some (.rat (1.61 : ℚ)) ∧
    u16be [5,0,0,0,0,0,0,0,0,0,0,0,0,0,161,0,0,0,0,0,0,0,0,0] 13 = 161 ∧
    pyRound 2 (((161 / 32 + 1600 : ℕ) : ℚ) / 1000) = (1.6 : ℚ) ∧
    (1.61 : ℚ) ≠ (1.6 : ℚ) :=
  ⟨by with_unfolding_all rfl, by with_unfolding_all rfl,
   by with_unfolding_all rfl, by norm_num⟩

/-- Claim C7 amended: on every valid 24-byte Ruuvi payload the voltage is
`round((power_info / 32 + 1600) / 1000, 2)` with Python true division
(which differs from the claimed `>> 5` extraction whenever the low 5 bits
push a half-cent tie over), and txstrength is
`(power_info % 32) * 2 - 40`. -/
theorem claim7_power_info :
    ∀ (mac : String) (name : JVal) (data : List ℕ), data.length = 24 →
      byteAt data 0 = 5 →
      jget (ruuvi_decode_bytes mac name data) "voltage" =
        some (.rat (ruuviVoltage (u16be data 13))) ∧
      jget (ruuvi_decode_bytes mac name data) "txstrength" =
        some (.int ((u16be data 13 % 32 : ℕ) * 2 - 40)) := by
  intro mac name data h h5
  rw [ruuvi_ok_form mac name data h h5]
  constructor <;> simp [jget, List.lookup]

/-- Witness for C7 amended at the power-info-161 payload. -/
theorem claim7_witness :
    jget (ruuvi_decode_bytes "M" .null
        [5,0,0,0,0,0,0,0,0,0,0,0,0,0,161,0,0,0,0,0,0,0,0,0]) "voltage" =
      some (.rat (ruuviVoltage
        (u16be [5,0,0,0,0,0,0,0,0,0,0,0,0,0,161,0,0,0,0,0,0,0,0,0] 13))) ∧
    jget (ruuvi_decode_bytes "M" .null
        [5,0,0,0,0,0,0,0,0,0,0,0,0,0,161,0,0,0,0,0,0,0,0,0]) "txstrength" =
      some (.int
        ((u16be [5,0,0,0,0,0,0,0,0,0,0,0,0,0,161,0,0,0,0,0,0,0,0,0] 13 % 32 : ℕ)
          * 2 - 40)) :=
  claim7_power_info "M" .null [5,0,0,0,0,0,0,0,0,0,0,0,0,0,161,0,0,0,0,0,0,0,0,0]
    (by decide) (by decide)

lemma pyRoundInt_bounds (x : ℚ) : ⌊x⌋ ≤ pyRoundInt x ∧ pyRoundInt x ≤ ⌊x⌋ + 1 := by
  rw [pyRoundInt]
  split_ifs <;> omega

lemma ruuviVoltage_bounds (pw : ℕ) (h : pw ≤ 65535) :
    (8/5 : ℚ) ≤ ruuviVoltage pw ∧ ruuviVoltage pw ≤ 73/20 := by
  have hx1 : ((pw : ℕ) : ℚ) ≤ 65535 := by exact_mod_cast h
  have hx0 : (0 : ℚ) ≤ ((pw : ℕ) : ℚ) := by positivity
  have hlo : (160 : ℚ) ≤ ((pw : ℚ) / 32 + 1600) / 1000 * 10 ^ 2 := by linarith
  have hhi : ((pw : ℚ) / 32 + 1600) / 1000 * 10 ^ 2 < 365 := by linarith
  obtain ⟨hb1, hb2⟩ := pyRoundInt_bounds (((pw : ℚ) / 32 + 1600) / 1000 * 10 ^ 2)
  have hfl : (160 : ℤ) ≤ ⌊((pw : ℚ) / 32 + 1600) / 1000 * 10 ^ 2⌋ :=
    Int.le_floor.mpr (by exact_mod_cast hlo)
  have hfu : ⌊((pw : ℚ) / 32 + 1600) / 1000 * 10 ^ 2⌋ < 365 :=
    Int.floor_lt.mpr (by exact_mod_cast hhi)
  have hc1 : (160 : ℚ) ≤ (pyRoundInt (((pw : ℚ) / 32 + 1600) / 1000 * 10 ^ 2) : ℚ) := by
    exact_mod_cast le_trans hfl hb1
  have hc2 : (pyRoundInt (((pw : ℚ) / 32 + 1600) / 1000 * 10 ^ 2) : ℚ) ≤ 365 := by
    exact_mod_cast le_trans hb2 (by omega)
  rw [ruuviVoltage, pyRound]
  constructor <;> [linarith; linarith]

lemma ruuviBattery_bounds (pw : ℕ) (h : pw ≤ 65535) :
    0 ≤ ruuviBattery pw ∧ ruuviBattery pw ≤ 100 := by
  obtain ⟨h1, h2⟩ := ruuviVoltage_bounds pw h
  rw [ruuviBattery]
  have harg0 : (0 : ℚ) ≤
      (ruuviVoltage pw - 1600/1000) / (3646/1000 - 1600/1000) * 100 := by
    apply mul_nonneg (div_nonneg (by linarith) (by norm_num)) (by norm_num)
  have harg1 : (ruuviVoltage pw - 1600/1000) / (3646/1000 - 1600/1000) * 100 < 101 := by
    rw [div_mul_eq_mul_div,
      div_lt_iff₀ (by norm_num : (0 : ℚ) < 3646/1000 - 1600/1000)]
    nlinarith
  rw [pyInt, if_pos harg0]
  refine ⟨Int.floor_nonneg.mpr harg0, ?_⟩
  have := Int.floor_lt.mpr
    (show (ruuviVoltage pw - 1600/1000) / (3646/1000 - 1600/1000) * 100 <
      ((101 : ℤ) : ℚ) by exact_mod_cast harg1)
  omega

/-- Claim C8 counterexample: the all-ones power-info payload decodes to
voltage 3.65, strictly above the 3.646 bound, yet its batterylevel is
exactly 100, not greater than 100. -/
theorem claim8_counterexample :
    jget (ruuvi_decode_bytes "M" .null
        [5,0,0,0,0,0,0,0,0,0,0,0,0,255,255,0,0,0,0,0,0,0,0,0]) "voltage" =
      some (.rat (3.65 : ℚ)) ∧
    (3.646 : ℚ) < (3.65 : ℚ) ∧
    jget (ruuvi_decode_bytes "M" .null
        [5,0,0,0,0,0,0,0,0,0,0,0,0,255,255,0,0,0,0,0,0,0,0,0]) "batterylevel" =
      some (.int 100) ∧
    ¬ (100 < (100 : ℤ)) :=
  ⟨by with_unfolding_all rfl, by norm_num,
   by with_unfolding_all rfl, by norm_num⟩

/-- Claim C8 amended: batterylevel is the unclamped truncated linear
interpolation `int((voltage - 1.600) / (3.646 - 1.600) * 100)`, but on
every valid payload it lies in [0, 100]: since the decoded voltage never
exceeds 3.65, even payloads whose voltage exceeds 3.646 V truncate back to
exactly 100, so no payload produces a batterylevel above 100. -/
theorem claim8_batterylevel :
    ∀ (mac : String) (name : JVal) (data : List ℕ), data.length = 24 →
      (∀ b ∈ data, b < 256) → byteAt data 0 = 5 →
      jget (ruuvi_decode_bytes mac name data) "batterylevel" =
        some (.int (ruuviBattery (u16be data 13))) ∧
      ruuviBattery (u16be data 13) =
        pyInt ((ruuviVoltage (u16be data 13) - 1600/1000) /
          (3646/1000 - 1600/1000) * 100) ∧
      0 ≤ ruuviBattery (u16be data 13) ∧
      ruuviBattery (u16be data 13) ≤ 100 := by
  intro mac name data h hb h5
  have hpw : u16be data 13 ≤ 65535 := u16be_le data hb (by omega)
  obtain ⟨b0, b1⟩ := ruuviBattery_bounds _ hpw
  refine ⟨?_, rfl, b0, b1⟩
  rw [ruuvi_ok_form mac name data h h5]
  simp [jget, List.lookup]

/-- Witness for C8 amended at the all-ones power-info payload. -/
theorem claim8_witness :
    jget (ruuvi_decode_bytes "M" .null
        [5,0,0,0,0,0,0,0,0,0,0,0,0,255,255,0,0,0,0,0,0,0,0,0]) "batterylevel" =
      some (.int (ruuviBattery
        (u16be [5,0,0,0,0,0,0,0,0,0,0,0,0,255,255,0,0,0,0,0,0,0,0,0] 13))) ∧
    ruuviBattery (u16be [5,0,0,0,0,0,0,0,0,0,0,0,0,255,255,0,0,0,0,0,0,0,0,0] 13) =
      pyInt ((ruuviVoltage
          (u16be [5,0,0,0,0,0,0,0,0,0,0,0,0,255,255,0,0,0,0,0,0,0,0,0] 13) -
          1600/1000) / (3646/1000 - 1600/1000) * 100) ∧
    0 ≤ ruuviBattery (u16be [5,0,0,0,0,0,0,0,0,0,0,0,0,255,255,0,0,0,0,0,0,0,0,0] 13) ∧
    ruuviBattery (u16be [5,0,0,0,0,0,0,0,0,0,0,0,0,255,255,0,0,0,0,0,0,0,0,0] 13) ≤ 100 :=
  claim8_batterylevel "M" .null
    [5,0,0,0,0,0,0,0,0,0,0,0,0,255,255,0,0,0,0,0,0,0,0,0]
    (by decide) (by decide) (by decide)

/-- Claim C9 counterexample: a 24-byte payload with discriminator 1 makes
the Ruuvi decoder emit an ERR reading that has no `name` field at all, even
though the input carried a name. -/
theorem claim9_counterexample :
    jget (ruuvi_decode_bytes "AA:BB:CC:DD:EE:FF" (.str "Ruuvi B78D")
        (List.replicate 24 1)) "status" = some (.str "ERR") ∧
    jget (ruuvi_decode_bytes "AA:BB:CC:DD:EE:FF" (.str "Ruuvi B78D")
        (List.replicate 24 1)) "name" = none :=
  ⟨by with_unfolding_all rfl, by with_unfolding_all rfl⟩

/-- Claim C9 amended: the wrong-length error objects of all three decoders
carry `mac`, `name` and `message`; the Ruuvi wrong-discriminator error
carries `mac` and `message` but omits the `name` field. -/
theorem claim9_err_fields :
    ∀ (mac : String) (name : JVal) (data : List ℕ),
      (data.length ≠ 15 →
        jget (atc_decode_bytes mac name data) "mac" = some (.str mac) ∧
        jget (atc_decode_bytes mac name data) "name" = some name ∧
        jget (atc_decode_bytes mac name data) "message" =
          some (.str (wrongSizeMsg 15 data.length))) ∧
      (data.length ≠ 6 →
        jget (gvh_decode_bytes mac name data) "mac" = some (.str mac) ∧
        jget (gvh_decode_bytes mac name data) "name" = some name ∧
        jget (gvh_decode_bytes mac name data) "message" =
          some (.str (wrongSizeMsg 6 data.length))) ∧
      (data.length ≠ 24 →
        jget (ruuvi_decode_bytes mac name data) "mac" = some (.str mac) ∧
        jget (ruuvi_decode_bytes mac name data) "name" = some name ∧
        jget (ruuvi_decode_bytes mac name data) "message" =
          some (.str (wrongSizeMsg 24 data.length))) ∧
      (data.length = 24 → byteAt data 0 ≠ 5 →
        jget (ruuvi_decode_bytes mac name data) "mac" = some (.str mac) ∧
        jget (ruuvi_decode_bytes mac name data) "message" =
          some (.str "Received wrong data type.") ∧
        jget (ruuvi_decode_bytes mac name data) "name" = none) := by
  intro mac name data
  refine ⟨fun h => ?_, fun h => ?_, fun h => ?_, fun h24 h5 => ?_⟩
  · rw [atc_decode_bytes, if_pos h]
    refine ⟨?_, ?_, ?_⟩ <;> simp [jget, List.lookup]
  · rw [gvh_decode_bytes, if_pos h]
    refine ⟨?_, ?_, ?_⟩ <;> simp [jget, List.lookup]
  · rw [ruuvi_decode_bytes, if_pos h]
    refine ⟨?_, ?_, ?_⟩ <;> simp [jget, List.lookup]
  · rw [ruuvi_errtype_form mac name data h24 h5]
    refine ⟨?_, ?_, ?_⟩ <;> simp [jget, List.lookup]

/-- Witness for C9 amended: the wrong-length conjuncts at an empty payload
and the wrong-discriminator conjunct at an all-ones payload. -/
theorem claim9_witness :
    (jget (atc_decode_bytes "M" (.str "N") []) "mac" = some (.str "M") ∧
     jget (atc_decode_bytes "M" (.str "N") []) "name" = some (.str "N") ∧
     jget (atc_decode_bytes "M" (.str "N") []) "message" =
       some (.str (wrongSizeMsg 15 (List.length ([] : List ℕ))))) ∧
    (jget (gvh_decode_bytes "M" (.str "N") []) "mac" = some (.str "M") ∧
     jget (gvh_decode_bytes "M" (.str "N") []) "name" = some (.str "N") ∧
     jget (gvh_decode_bytes "M" (.str "N") []) "message" =
       some (.str (wrongSizeMsg 6 (List.length ([] : List ℕ))))) ∧
    (jget (ruuvi_decode_bytes "M" (.str "N") []) "mac" = some (.str "M") ∧
     jget (ruuvi_decode_bytes "M" (.str "N") []) "name" = some (.str "N") ∧
     jget (ruuvi_decode_bytes "M" (.str "N") []) "message" =
       some (.str (wrongSizeMsg 24 (List.length ([] : List ℕ))))) ∧
    (jget (ruuvi_decode_bytes "M" (.str "N") (List.replicate 24 1)) "mac" =
       some (.str "M") ∧
     jget (ruuvi_decode_bytes "M" (.str "N") (List.replicate 24 1)) "message" =
       some (.str "Received wrong data type.") ∧
     jget (ruuvi_decode_bytes "M" (.str "N") (List.replicate 24 1)) "name" =
       none) :=
  ⟨(claim9_err_fields "M" (.str "N") []).1 (by decide),
   (claim9_err_fields "M" (.str "N") []).2.1 (by decide),
   (claim9_err_fields "M" (.str "N") []).2.2.1 (by decide),
   (claim9_err_fields "M" (.str "N") (List.replicate 24 1)).2.2.2
     (by decide) (by decide)⟩

end BLEScanner
